import Mathlib

/-!
Shallow embedding of the `local-dynamodb-js` instance manager
(`src/index.ts`, the full-API module) and its binary provisioner
(`src/utils.ts`).  JavaScript runtime values are modelled directly:
the mode is a `String` (the TypeScript union is erased at runtime and
`configure` re-validates arbitrary strings), the port is an `Int`
(a JS number supplied by callers), the mutable `dynamoDbProcess`
variable is an `Option ProcessHandle` threaded through each
operation, and a thrown `Error` is an `Option err` paired with the
state at the moment of the throw (every throw in the source happens
before any mutation, which the pairing makes visible).  External I/O
(the path oracle, fetch, extraction, writes) is a `World` of oracles,
and the provisioner records the side effects it performs as a list.
-/

/-- Where the DynamoDB Local artifact is sourced from (`SourceType` in
`utils.ts`): the world wide web or the local machine. -/
inductive SourceType where
  | www
  | local
deriving DecidableEq, Repr

/-- The argument object of `downloadLocalDynamoDb`: `sourceType`,
optional `source`, and `extract` (defaulted to `true` at the call sites
that omit it). -/
structure DownloadParams where
  sourceType : SourceType
  source : Option String
  extract : Bool
deriving DecidableEq, Repr

/-- Observable side effects of the provisioner: directory creation,
the network fetch, archive extraction, and raw file writes. -/
inductive Effect where
  | mkdirEffect (dir : String)
  | fetchEffect (url : String)
  | extractEffect (dest : String)
  | writeEffect (file : String)
deriving DecidableEq, Repr

/-- The provisioner's error taxonomy.  The source throws plain `Error`
values; the constructors here separate the distinct throw sites:
`InvalidSourceError` for the two pre-I/O `local`-source checks and
`WrappedError` for anything caught and re-thrown by the `try` block
(fetch, extraction, or write failures, wrapped with a fixed prefix). -/
inductive ProvisionError where
  | InvalidSourceError (msg : String)
  | WrappedError (msg : String)
deriving DecidableEq, Repr

/-- The external world the provisioner runs against: the path oracle
(`pathExists`), whether a fetch of a given URL succeeds (`response.ok`),
whether archive extraction succeeds, whether a raw save succeeds, and
the working directory used by `path.resolve`. -/
structure World where
  pathExists : String → Bool
  fetchOk : String → Bool
  extractOk : Bool
  writeOk : Bool
  cwd : String

/-- Model of `path.join` / `path.resolve` for the simple
segment-appending uses in the source. -/
def pathJoin (a b : String) : String := a ++ "/" ++ b

/-- The constant `LOCAL_DYNAMODB_LATEST_DOWNLOAD_ZIP` in `utils.ts`. -/
def LOCAL_DYNAMODB_LATEST_DOWNLOAD_ZIP : String :=
  "https://d1ni2b6xgvw0s0.cloudfront.net/v2.x/dynamodb_local_latest.zip"

/-- JavaScript falsiness of an optional string: `undefined` and the
empty string are falsy (`!source` in the source code). -/
def isFalsy : Option String → Bool
  | none => true
  | some s => s == ""

/-- Model of the helper `downloadAndSaveFileLocally` in `utils.ts`:
fetch the URL, fail when the response is not ok, then either extract
the archive into `extractDestination` or write the raw bytes to
`filePath`.  Returns the thrown message (if any) together with the
effects performed, in order. -/
def downloadAndSaveFileLocally (w : World) (url : String) (filePath : String)
    (extract : Bool) (extractDestination : String) :
    Option String × List Effect :=
  if !(w.fetchOk url) then
    (some ("Failed to fetch the file: " ++ url), [Effect.fetchEffect url])
  else if extract then
    if w.extractOk then
      (none, [Effect.fetchEffect url, Effect.extractEffect extractDestination])
    else
      (some "extraction failed", [Effect.fetchEffect url])
  else
    if w.writeOk then
      (none, [Effect.fetchEffect url, Effect.writeEffect filePath])
    else
      (some "write failed", [Effect.fetchEffect url])

/-- Model of `downloadLocalDynamoDb` in `utils.ts`.  Validates a
`local` source (missing/empty source, then existence via the path
oracle) before any I/O; resolves the download URL (`source ||` the
default for `www`); resolves the destination `.local_dynamodb`
directory under the working directory, creating it when the path
oracle says it is absent; downloads and extracts or saves; wraps any
failure from that stage in a fixed message prefix.  Returns the
result (destination directory or error) together with the list of
side effects performed, in order. -/
def downloadLocalDynamoDb (w : World) (p : DownloadParams) :
    (Except ProvisionError String) × List Effect :=
  if p.sourceType = SourceType.local ∧ isFalsy p.source then
    (Except.error (ProvisionError.InvalidSourceError
      "A source is required when specifying a local artifact of DynamoDB."), [])
  else if p.sourceType = SourceType.local ∧ ¬ (isFalsy p.source) ∧
      ¬ (w.pathExists (p.source.getD "") = true) then
    (Except.error (ProvisionError.InvalidSourceError
      ("The specified local source path does not exist: " ++ p.source.getD "")), [])
  else
    let downloadUrl :=
      if p.sourceType = SourceType.www then
        (if isFalsy p.source then LOCAL_DYNAMODB_LATEST_DOWNLOAD_ZIP
         else p.source.getD "")
      else p.source.getD ""
    let resolvedDestination := pathJoin w.cwd (".local_dynamodb")
    let zipFilePath := pathJoin resolvedDestination ("dynamodb_local_latest.zip")
    let mkdirEffects :=
      if w.pathExists resolvedDestination then ([] : List Effect)
      else [Effect.mkdirEffect resolvedDestination]
    match downloadAndSaveFileLocally w downloadUrl zipFilePath p.extract resolvedDestination with
    | (none, effs) => (Except.ok resolvedDestination, mkdirEffects ++ effs)
    | (some msg, effs) =>
        (Except.error (ProvisionError.WrappedError
          ("Failed to download and extract DynamoDB: " ++ msg)), mkdirEffects ++ effs)

/-- The configuration record `LocalDynamoDbOptions` (port and mode);
the mode is kept as the runtime string. -/
structure LocalDynamoDbOptions where
  port : Int
  mode : String
deriving DecidableEq, Repr

/-- The spawned subprocess handle (`ChildProcess`): the command and
argument vector it was spawned with, and whether the `exit` and
`error` observers were registered on it. -/
structure ProcessHandle where
  cmd : String
  args : List String
  exitObserver : Bool
  errorObserver : Bool
deriving DecidableEq, Repr

/-- The state captured by one `localDynamoDb(options)` closure: the
mutable `options` object and the mutable `dynamoDbProcess` variable. -/
structure ManagerState where
  options : LocalDynamoDbOptions
  dynamoDbProcess : Option ProcessHandle
deriving DecidableEq, Repr

/-- The status enumeration of `LocalDynamoDbStatus.status`. -/
inductive StatusValue where
  | UP
  | DOWN
  | PENDING
deriving DecidableEq, Repr

/-- The `LocalDynamoDbStatus` record returned by `status()`. -/
structure LocalDynamoDbStatus where
  status : StatusValue
  port : Int
  mode : String
deriving DecidableEq, Repr

/-- Errors `start()` can surface: the already-running guard, or a
failure propagated from the provisioner. -/
inductive StartError where
  | AlreadyRunningError (msg : String)
  | ProvisionFailure (e : ProvisionError)
deriving DecidableEq, Repr

/-- Errors `configure()` can throw: the port-range check and the
mode-enum check. -/
inductive ConfigureError where
  | InvalidPortError (msg : String)
  | InvalidModeError (msg : String)
deriving DecidableEq, Repr

/-- The argument of `configure`: `Partial<LocalDynamoDbOptions>`,
each field optionally present. -/
structure PartialOptions where
  port : Option Int
  mode : Option String
deriving DecidableEq, Repr

/-- The descriptor `start()` passes to the provisioner:
`{ sourceType: "www" }` (source omitted, extract defaulted to true). -/
def wwwDescriptor : DownloadParams :=
  { sourceType := SourceType.www, source := none, extract := true }

/-- The argument vector built by `start()`: library-path flag, `-jar`,
jar path, the mode-selection slot (empty string for an unrecognized
mode), `-port`, and the port rendered as a string; then
`.filter(Boolean)` drops empty strings. -/
def spawnArgs (mode : String) (port : Int) (basePath : String) : List String :=
  (["-Djava.library.path=" ++ pathJoin basePath ("DynamoDBLocal_lib"),
    "-jar",
    pathJoin basePath ("DynamoDBLocal.jar"),
    (if mode == "inMemory" then "-inMemory"
     else if mode == "sharedDb" then "-sharedDb"
     else ""),
    "-port",
    toString port]).filter (fun a => a != "")

/-- Model of `start()`: throw when a handle is already present,
provision the binary, build the argument vector from the current
options, spawn `java` and register the exit and error observers.
Returns the state at return or at the point of the throw, paired with
the thrown error if any (every throw happens before the single
mutation, so a failing call leaves the state untouched). -/
def start (w : World) (s : ManagerState) : ManagerState × Option StartError :=
  if s.dynamoDbProcess.isSome then
    (s, some (StartError.AlreadyRunningError
      "There is already a local DynamoDb process running."))
  else
    match downloadLocalDynamoDb w wwwDescriptor with
    | (Except.error e, _) => (s, some (StartError.ProvisionFailure e))
    | (Except.ok basePath, _) =>
        let h : ProcessHandle :=
          { cmd := "java",
            args := spawnArgs s.options.mode s.options.port basePath,
            exitObserver := true,
            errorObserver := true }
        ({ s with dynamoDbProcess := some h }, none)

/-- The handle-clearing effect `dynamoDbProcess = null` shared by
`stop` and both observers. -/
def clearHandle (s : ManagerState) : ManagerState :=
  { s with dynamoDbProcess := none }

/-- Model of `stop()`: when a handle is present, send SIGTERM and
clear it; otherwise do nothing.  `stop` has no throw site, so it
returns only the new state. -/
def stop (s : ManagerState) : ManagerState :=
  match s.dynamoDbProcess with
  | some _ => clearHandle s
  | none => s

/-- The signal `stop()` sends: SIGTERM when a handle is present,
nothing otherwise. -/
def stopSignal (s : ManagerState) : Option String :=
  match s.dynamoDbProcess with
  | some _ => some "SIGTERM"
  | none => none

/-- Model of `restart()`: call `stop` when a handle is present, then
unconditionally call `start`. -/
def restart (w : World) (s : ManagerState) : ManagerState × Option StartError :=
  let s1 := if s.dynamoDbProcess.isSome then stop s else s
  start w s1

/-- Model of `liveness()`: true iff the handle is present. -/
def liveness (s : ManagerState) : Bool :=
  s.dynamoDbProcess.isSome

/-- Model of `readiness()`: the source body is identical to
`liveness()`. -/
def readiness (s : ManagerState) : Bool :=
  s.dynamoDbProcess.isSome

/-- Model of `status()`: UP when the handle is present, DOWN
otherwise, together with the current port and mode. -/
def status (s : ManagerState) : LocalDynamoDbStatus :=
  { status := if s.dynamoDbProcess.isSome then StatusValue.UP else StatusValue.DOWN,
    port := s.options.port,
    mode := s.options.mode }

/-- Model of the accessor `port()`. -/
def port (s : ManagerState) : Int :=
  s.options.port

/-- Model of the accessor `mode()`. -/
def mode (s : ManagerState) : String :=
  s.options.mode

/-- Model of `configure(newOptions)`: validate a supplied port against
1024–65535, then a supplied mode against the two recognized strings,
then `Object.assign` the supplied fields into the options.  Both
throws happen before the merge, so a failing call leaves the state
untouched. -/
def configure (s : ManagerState) (n : PartialOptions) :
    ManagerState × Option ConfigureError :=
  if (match n.port with
      | some p => decide (p < 1024) || decide (p > 65535)
      | none => false) then
    (s, some (ConfigureError.InvalidPortError "Port must be between 1024 and 65535."))
  else if (match n.mode with
      | some m => !(["inMemory", "sharedDb"].contains m)
      | none => false) then
    (s, some (ConfigureError.InvalidModeError "Invalid mode. Expected 'inMemory' or 'sharedDb'."))
  else
    ({ s with options :=
        { port := n.port.getD s.options.port,
          mode := n.mode.getD s.options.mode } }, none)

/-- Asynchronous notifications a spawned process can deliver. -/
inductive ProcessEvent where
  | exitEvent (code : Int)
  | errorEvent
deriving DecidableEq, Repr

/-- Delivery of a process notification to the manager: the matching
observer (when registered on the current handle) logs and clears the
handle; with no handle or no registered observer nothing happens. -/
def notify (s : ManagerState) (e : ProcessEvent) : ManagerState :=
  match s.dynamoDbProcess with
  | none => s
  | some h =>
      match e with
      | ProcessEvent.exitEvent _ => if h.exitObserver then clearHandle s else s
      | ProcessEvent.errorEvent => if h.errorObserver then clearHandle s else s

/-- The handle a successful `start()` leaves behind: `java` spawned on the
derived argument vector, with both observers registered. -/
def startedHandle (opts : LocalDynamoDbOptions) (basePath : String) : ProcessHandle :=
  { cmd := "java",
    args := spawnArgs opts.mode opts.port basePath,
    exitObserver := true,
    errorObserver := true }

/-- A fully permissive external world used for concrete evaluations: every
path exists, every fetch and extraction succeeds. -/
def w0 : World :=
  { pathExists := fun _ => true,
    fetchOk := fun _ => true,
    extractOk := true,
    writeOk := true,
    cwd := "/repo" }

/-- A concrete manager state with no process handle. -/
def sdown : ManagerState :=
  { options := { port := 8000, mode := "inMemory" }, dynamoDbProcess := none }

/-- A concrete manager state with a process handle present. -/
def srun : ManagerState :=
  { options := { port := 8000, mode := "inMemory" },
    dynamoDbProcess := some
      { cmd := "java", args := [], exitObserver := true, errorObserver := true } }

theorem toDigitsCore_ne_nil_of_ds_ne_nil (b : Nat) :
    ∀ (fuel n : Nat) (ds : List Char), ds ≠ [] → Nat.toDigitsCore b fuel n ds ≠ [] := by
  intro fuel
  induction fuel with
  | zero => intro n ds h; simpa [Nat.toDigitsCore] using h
  | succ f ih =>
      intro n ds h
      simp only [Nat.toDigitsCore]
      split
      · simp
      · exact ih _ _ (by simp)

theorem toDigitsCore_succ_ne_nil (b f n : Nat) (ds : List Char) :
    Nat.toDigitsCore b (f+1) n ds ≠ [] := by
  simp only [Nat.toDigitsCore]
  split
  · simp
  · exact toDigitsCore_ne_nil_of_ds_ne_nil b f (n / b) _ (by simp)

theorem nat_repr_ne_empty (n : Nat) : Nat.repr n ≠ "" := by
  intro h
  have hd := congrArg String.data h
  simp [Nat.repr, Nat.toDigits, List.asString] at hd
  exact toDigitsCore_succ_ne_nil 10 n n [] hd

theorem string_append_data (a b : String) : (a ++ b).data = a.data ++ b.data := by
  cases a; cases b; rfl

theorem str_append_ne_empty_right (a b : String) (hb : b ≠ "") : a ++ b ≠ "" := by
  intro h
  apply hb
  have hd := congrArg String.data h
  rw [string_append_data] at hd
  have hb2 : b.data = [] := (List.append_eq_nil.mp (by simpa using hd)).2
  cases b with
  | mk bd => cases hb2; rfl

theorem int_toString_ne_empty (p : Int) : toString p ≠ "" := by
  cases p with
  | ofNat m => exact nat_repr_ne_empty m
  | negSucc m =>
      exact str_append_ne_empty_right "-" (Nat.repr (m+1)) (nat_repr_ne_empty (m+1))

theorem pathJoin_ne_empty (a b : String) (hb : b ≠ "") : pathJoin a b ≠ "" :=
  str_append_ne_empty_right (a ++ "/") b hb

theorem spawnArgs_eq (m : String) (p : Int) (basePath : String) :
    spawnArgs m p basePath =
      ["-Djava.library.path=" ++ pathJoin basePath ("DynamoDBLocal_lib"), "-jar",
        pathJoin basePath ("DynamoDBLocal.jar")] ++
      (if m == "inMemory" then ["-inMemory"]
       else if m == "sharedDb" then ["-sharedDb"] else []) ++
      ["-port", toString p] := by
  have hlib : ("-Djava.library.path=" ++ pathJoin basePath ("DynamoDBLocal_lib")) ≠ "" :=
    str_append_ne_empty_right _ _ (pathJoin_ne_empty _ _ (by decide))
  have hjar : pathJoin basePath ("DynamoDBLocal.jar") ≠ "" :=
    pathJoin_ne_empty _ _ (by decide)
  have hport : toString p ≠ "" := int_toString_ne_empty p
  have hlib2 : (("-Djava.library.path=" ++ pathJoin basePath ("DynamoDBLocal_lib")) != "") = true := by
    simp [bne_iff_ne, hlib]
  have hjar2 : (pathJoin basePath ("DynamoDBLocal.jar") != "") = true := by
    simp [bne_iff_ne, hjar]
  have hport2 : ((toString p) != "") = true := by
    simp [bne_iff_ne, hport]
  by_cases h1 : m == "inMemory"
  · simp [spawnArgs, List.filter, h1, hlib2, hjar2, hport2]
  · by_cases h2 : m == "sharedDb"
    · simp [spawnArgs, List.filter, h1, h2, hlib2, hjar2, hport2]
    · simp [spawnArgs, List.filter, h1, h2, hlib2, hjar2, hport2]

theorem downloadLocalDynamoDb_ok_dest (w : World) (p : DownloadParams) (d : String)
    (effs : List Effect) (h : downloadLocalDynamoDb w p = (Except.ok d, effs)) :
    d = pathJoin w.cwd (".local_dynamodb") := by
  unfold downloadLocalDynamoDb at h
  split at h
  · simp at h
  · split at h
    · simp at h
    · dsimp only at h
      repeat' split at h
      all_goals simp_all

theorem start_ok_shape (w : World) (s : ManagerState) (h : (start w s).2 = none) :
    s.dynamoDbProcess = none ∧
    (start w s).1 =
      { s with dynamoDbProcess := some (startedHandle s.options (pathJoin w.cwd (".local_dynamodb"))) } := by
  cases hp : s.dynamoDbProcess with
  | some hd => simp [start, hp] at h
  | none =>
      refine ⟨rfl, ?_⟩
      rcases hdl : downloadLocalDynamoDb w wwwDescriptor with ⟨r, effs⟩
      cases r with
      | error e => simp [start, hp, hdl] at h
      | ok d =>
          have hd : d = pathJoin w.cwd (".local_dynamodb") :=
            downloadLocalDynamoDb_ok_dest w wwwDescriptor d effs hdl
          simp [start, hp, hdl, hd, startedHandle]

/-- C1: with a handle present, `start()` throws `AlreadyRunningError` with its
descriptive message and leaves the state (handle and configuration) unchanged;
with no handle present, `start()` never produces that error. -/
theorem start_alreadyRunning_contract (w : World) (s : ManagerState) :
    (s.dynamoDbProcess.isSome = true →
      start w s = (s, some (StartError.AlreadyRunningError
        "There is already a local DynamoDb process running."))) ∧
    (s.dynamoDbProcess.isSome = false →
      ∀ msg, (start w s).2 ≠ some (StartError.AlreadyRunningError msg)) := by
  constructor
  · intro h
    simp [start, h]
  · intro h msg
    rcases hdl : downloadLocalDynamoDb w wwwDescriptor with ⟨r, effs⟩
    cases r <;> simp [start, h, hdl]

theorem start_alreadyRunning_contract_witness :
    start w0 srun = (srun, some (StartError.AlreadyRunningError
      "There is already a local DynamoDb process running.")) :=
  (start_alreadyRunning_contract w0 srun).1 rfl

/-- C2: `status()` reports UP exactly when the handle is present and DOWN
exactly when it is absent, never PENDING, together with the current port
and mode. -/
theorem status_contract (s : ManagerState) :
    (status s).status =
      (if s.dynamoDbProcess.isSome then StatusValue.UP else StatusValue.DOWN) ∧
    ((status s).status == StatusValue.PENDING) = false ∧
    (status s).port = s.options.port ∧
    (status s).mode = s.options.mode := by
  refine ⟨rfl, ?_, rfl, rfl⟩
  cases hp : s.dynamoDbProcess <;> simp [status, hp]

/-- C5: `stop()` is error-free and idempotent: on a handle-free state it is a
no-op with `liveness()` false before and after, and both `stop` and the shared
handle-clearing effect are no-ops on second invocation. -/
theorem stop_contract (s : ManagerState) :
    stop (stop s) = stop s ∧
    clearHandle (clearHandle s) = clearHandle s ∧
    (s.dynamoDbProcess = none →
      stop s = s ∧ liveness s = false ∧ liveness (stop s) = false) := by
  refine ⟨?_, rfl, ?_⟩
  · cases hp : s.dynamoDbProcess <;> simp [stop, clearHandle, hp]
  · intro h
    cases s with
    | mk opts hd =>
        cases h
        exact ⟨rfl, rfl, rfl⟩

theorem stop_contract_witness :
    stop sdown = sdown ∧ liveness sdown = false ∧ liveness (stop sdown) = false :=
  (stop_contract sdown).2.2 rfl

/-- C7: `readiness()` and `liveness()` compute the same boolean, true exactly
when the handle is present; both are pure functions of the state. -/
theorem readiness_eq_liveness (s : ManagerState) :
    readiness s = liveness s ∧
    liveness s = s.dynamoDbProcess.isSome ∧
    readiness s = s.dynamoDbProcess.isSome :=
  ⟨rfl, rfl, rfl⟩

/-- C10: `configure` never touches the process handle, so `liveness()`,
`readiness()` and `status().status` are identical before and after any call,
successful or failed; the state outside the two configuration fields is
untouched. -/
theorem configure_frame (s : ManagerState) (n : PartialOptions) :
    (configure s n).1.dynamoDbProcess = s.dynamoDbProcess ∧
    liveness (configure s n).1 = liveness s ∧
    readiness (configure s n).1 = readiness s ∧
    (status (configure s n).1).status = (status s).status := by
  unfold configure
  split
  · exact ⟨rfl, rfl, rfl, rfl⟩
  · split
    · exact ⟨rfl, rfl, rfl, rfl⟩
    · exact ⟨rfl, rfl, rfl, rfl⟩

/-- C3 counterexample: when both supplied fields are invalid
(`{port: 80, mode: "bogus"}`), `configure` fails with `InvalidPortError`,
not with the `InvalidModeError` the claim promises for an invalid mode. -/
theorem configure_bothInvalid_counterexample :
    configure sdown { port := some 80, mode := some "bogus" } =
      (sdown, some (ConfigureError.InvalidPortError "Port must be between 1024 and 65535.")) ∧
    ((configure sdown { port := some 80, mode := some "bogus" }).2 ==
      some (ConfigureError.InvalidModeError "Invalid mode. Expected 'inMemory' or 'sharedDb'.")) = false := by
  exact ⟨rfl, rfl⟩

/-- C3 (amended): a supplied out-of-range port fails with `InvalidPortError`;
a supplied unrecognized mode fails with `InvalidModeError` provided any
supplied port is in range (the port check runs first, so a simultaneously
invalid port wins); every failure leaves the state unchanged; on success
exactly the supplied fields are merged into the configuration in place. -/
theorem configure_contract (s : ManagerState) (n : PartialOptions) :
    (∀ p, n.port = some p → (p < 1024 ∨ p > 65535) →
      configure s n = (s, some (ConfigureError.InvalidPortError
        "Port must be between 1024 and 65535."))) ∧
    (∀ m, n.mode = some m → m ≠ "inMemory" → m ≠ "sharedDb" →
      (∀ p, n.port = some p → 1024 ≤ p ∧ p ≤ 65535) →
      configure s n = (s, some (ConfigureError.InvalidModeError
        "Invalid mode. Expected 'inMemory' or 'sharedDb'."))) ∧
    ((∀ p, n.port = some p → 1024 ≤ p ∧ p ≤ 65535) →
     (∀ m, n.mode = some m → m = "inMemory" ∨ m = "sharedDb") →
      configure s n =
        ({ s with options := { port := n.port.getD s.options.port, mode := n.mode.getD s.options.mode } },
         none)) := by
  refine ⟨?_, ?_, ?_⟩
  · intro p hp hout
    have hc : (match n.port with
        | some p => decide (p < 1024) || decide (p > 65535)
        | none => false) = true := by
      rw [hp]
      rcases hout with h | h <;> simp [h]
    simp [configure, hc]
  · intro m hm h1 h2 hport
    have hc : (match n.port with
        | some p => decide (p < 1024) || decide (p > 65535)
        | none => false) = false := by
      cases hp : n.port with
      | none => rfl
      | some p =>
          have := hport p hp
          simp
          omega
    have hmc : (match n.mode with
        | some m => !decide (m = "inMemory") && !decide (m = "sharedDb")
        | none => false) = true := by
      rw [hm]
      simp [h1, h2]
    simp [configure, hc, hmc]
  · intro hport hmode
    have hc : (match n.port with
        | some p => decide (p < 1024) || decide (p > 65535)
        | none => false) = false := by
      cases hp : n.port with
      | none => rfl
      | some p =>
          have := hport p hp
          simp
          omega
    have hmc : (match n.mode with
        | some m => !decide (m = "inMemory") && !decide (m = "sharedDb")
        | none => false) = false := by
      cases hm : n.mode with
      | none => rfl
      | some m =>
          rcases hmode m hm with h | h <;> simp [h]
    simp [configure, hc, hmc]

theorem configure_contract_witness :
    configure sdown { port := some 2000, mode := none } =
      ({ sdown with options := { port := 2000, mode := sdown.options.mode } }, none) :=
  (configure_contract sdown { port := some 2000, mode := none }).2.2
    (fun p hp => by injection hp with h; omega)
    (fun m hm => by cases hm)

/-- C4: `restart()` behaves exactly like `start()` from the handle-cleared
state (stop-first when a handle is present), so it can only fail with errors
`start` raises and never with `AlreadyRunningError`; on success the manager is
live and the new process was spawned with the port and mode configured at
call time. -/
theorem restart_contract (w : World) (s : ManagerState) :
    restart w s = start w (clearHandle s) ∧
    (∀ msg, (restart w s).2 ≠ some (StartError.AlreadyRunningError msg)) ∧
    ((restart w s).2 = none →
      liveness (restart w s).1 = true ∧
      (restart w s).1.dynamoDbProcess =
        some (startedHandle s.options (pathJoin w.cwd (".local_dynamodb")))) := by
  have heq : restart w s = start w (clearHandle s) := by
    cases hp : s.dynamoDbProcess with
    | some hd => simp [restart, stop, hp, clearHandle]
    | none =>
        cases s with
        | mk opts hdl =>
            cases hp
            simp [restart, clearHandle]
  refine ⟨heq, ?_, ?_⟩
  · intro msg
    rw [heq]
    have hnone : (clearHandle s).dynamoDbProcess.isSome = false := rfl
    rcases hdl : downloadLocalDynamoDb w wwwDescriptor with ⟨r, effs⟩
    cases r <;> simp [start, hnone, hdl]
  · intro h
    have hshape := start_ok_shape w (clearHandle s) (by rw [heq] at h; exact h)
    rw [heq]
    rw [hshape.2]
    exact ⟨rfl, rfl⟩

theorem restart_contract_witness :
    liveness (restart w0 srun).1 = true :=
  ((restart_contract w0 srun).2.2 rfl).1

/-- C6: a successful `start()` registers the exit and error observers on the
spawned handle, and delivering either notification clears the handle, so
`liveness()` is false afterwards and no handle survives a terminal
transition. -/
theorem start_observers_contract (w : World) (s : ManagerState)
    (h : (start w s).2 = none) :
    ((start w s).1.dynamoDbProcess.map ProcessHandle.exitObserver = some true) ∧
    ((start w s).1.dynamoDbProcess.map ProcessHandle.errorObserver = some true) ∧
    (∀ e, (notify ((start w s).1) e).dynamoDbProcess = none ∧
      liveness (notify ((start w s).1) e) = false) := by
  have hshape := (start_ok_shape w s h).2
  rw [hshape]
  refine ⟨rfl, rfl, ?_⟩
  intro e
  cases e <;> exact ⟨rfl, rfl⟩

theorem start_observers_contract_witness :
    liveness (notify ((start w0 sdown).1) (ProcessEvent.exitEvent 0)) = false :=
  ((start_observers_contract w0 sdown rfl).2.2 (ProcessEvent.exitEvent 0)).2

/-- C8: for a `local` source descriptor whose source is missing or empty, or
whose source the path oracle reports as non-existent, provisioning fails with
`InvalidSourceError` and performs no effect at all (no mkdir, fetch,
extraction, or write). -/
theorem provision_invalid_source (w : World) (p : DownloadParams)
    (hl : p.sourceType = SourceType.local) :
    (isFalsy p.source = true →
      downloadLocalDynamoDb w p = (Except.error (ProvisionError.InvalidSourceError
        "A source is required when specifying a local artifact of DynamoDB."), [])) ∧
    (∀ src, p.source = some src → src ≠ "" → w.pathExists src = false →
      downloadLocalDynamoDb w p = (Except.error (ProvisionError.InvalidSourceError
        ("The specified local source path does not exist: " ++ src)), [])) := by
  constructor
  · intro hf
    simp [downloadLocalDynamoDb, hl, hf]
  · intro src hsrc hne hex
    simp [downloadLocalDynamoDb, hl, hsrc, isFalsy, hne, hex]

theorem provision_invalid_source_witness :
    downloadLocalDynamoDb w0
        { sourceType := SourceType.local, source := none, extract := true } =
      (Except.error (ProvisionError.InvalidSourceError
        "A source is required when specifying a local artifact of DynamoDB."), []) :=
  (provision_invalid_source w0
    { sourceType := SourceType.local, source := none, extract := true } rfl).1 rfl

/-- C9: a successful `start()` spawns `java` with the library-path flag on the
`DynamoDBLocal_lib` sub-directory of the provisioned path, the `-jar` flag on
`DynamoDBLocal.jar` under the provisioned path, `-inMemory` for mode
`inMemory`, `-sharedDb` for mode `sharedDb`, the slot omitted for any other
mode, and `-port` followed by the configured port rendered as a string. -/
theorem start_spawn_args (w : World) (s : ManagerState)
    (h : (start w s).2 = none) :
    ((start w s).1.dynamoDbProcess.map ProcessHandle.cmd = some "java") ∧
    (s.options.mode = "inMemory" →
      (start w s).1.dynamoDbProcess.map ProcessHandle.args = some
        ["-Djava.library.path=" ++ pathJoin (pathJoin w.cwd (".local_dynamodb")) ("DynamoDBLocal_lib"),
         "-jar",
         pathJoin (pathJoin w.cwd (".local_dynamodb")) ("DynamoDBLocal.jar"),
         "-inMemory", "-port", toString s.options.port]) ∧
    (s.options.mode = "sharedDb" →
      (start w s).1.dynamoDbProcess.map ProcessHandle.args = some
        ["-Djava.library.path=" ++ pathJoin (pathJoin w.cwd (".local_dynamodb")) ("DynamoDBLocal_lib"),
         "-jar",
         pathJoin (pathJoin w.cwd (".local_dynamodb")) ("DynamoDBLocal.jar"),
         "-sharedDb", "-port", toString s.options.port]) ∧
    (s.options.mode ≠ "inMemory" → s.options.mode ≠ "sharedDb" →
      (start w s).1.dynamoDbProcess.map ProcessHandle.args = some
        ["-Djava.library.path=" ++ pathJoin (pathJoin w.cwd (".local_dynamodb")) ("DynamoDBLocal_lib"),
         "-jar",
         pathJoin (pathJoin w.cwd (".local_dynamodb")) ("DynamoDBLocal.jar"),
         "-port", toString s.options.port]) := by
  have hshape := (start_ok_shape w s h).2
  rw [hshape]
  refine ⟨rfl, ?_, ?_, ?_⟩
  · intro hm
    simp [startedHandle, spawnArgs_eq, hm]
  · intro hm
    simp [startedHandle, spawnArgs_eq, hm]
  · intro h1 h2
    simp [startedHandle, spawnArgs_eq, h1, h2]

theorem start_spawn_args_witness :
    (start w0 sdown).1.dynamoDbProcess.map ProcessHandle.args = some
      ["-Djava.library.path=/repo/.local_dynamodb/DynamoDBLocal_lib",
       "-jar", "/repo/.local_dynamodb/DynamoDBLocal.jar",
       "-inMemory", "-port", "8000"] :=
  (start_spawn_args w0 sdown rfl).2.1 rfl
